import Mathlib

/-!
Shallow embedding of `cmd/validator/exitfuzz/process.go` (package
`validatorexit`) from the ethdo repository, together with theorems
settling specification claims about it.

External collaborators (beacon-node client, wallet/account abstraction,
BLS primitives, SSZ hash-tree-root, JSON decoding, the filesystem and
the seeded PRNG stream) are modelled as parameters collected in an
`Env` structure: the spec declares them out of scope ("treated as
external collaborators, interfaces only"), and their code is not part
of this repository's sources.  Byte strings are `List Nat`; Go's
global `math/rand` source is modelled as an oracle stream with a
position, threaded explicitly.
-/

set_option autoImplicit false

namespace Exitfuzz

/-- `phase0.VoluntaryExit`: the unsigned exit message. -/
structure VoluntaryExit where
  epoch : Nat
  validatorIndex : Nat
deriving DecidableEq

/-- `phase0.SignedVoluntaryExit`: message plus 96-byte BLS signature. -/
structure SignedVoluntaryExit where
  message : VoluntaryExit
  signature : List Nat
deriving DecidableEq

/-- `beacon.ValidatorInfo` (the fields used by process.go). -/
structure ValidatorInfo where
  index : Nat
  pubkey : List Nat
deriving DecidableEq

/-- Opaque wallet account handle (`e2wtypes.Account`); its behaviour
(best public key, signing) lives in `Env`. -/
structure Account where
  id : Nat
deriving DecidableEq

/-- Result of `ethutil.PrivateKeyFromSeedAndPath`: we keep the
marshalled private-key bytes and the marshalled public key. -/
structure PrivKey where
  marshal : List Nat
  pubkey : List Nat
deriving DecidableEq

/-- Go's global `math/rand` source, as an oracle stream `f` plus the
position of the next draw. -/
structure RandState where
  f : Nat → Nat
  pos : Nat

/-- `rand.Intn bound`: one draw, value in `[0, bound)`. -/
def randIntn (bound : Nat) (r : RandState) : Nat × RandState :=
  (r.f r.pos % bound, ⟨r.f, r.pos + 1⟩)

/-- `rand.Int63`: one draw, a non-negative 63-bit value. -/
def randInt63 (r : RandState) : Int × RandState :=
  (Int.ofNat (r.f r.pos % 9223372036854775808), ⟨r.f, r.pos + 1⟩)

/-- `rand.Read` into an `n`-byte buffer: `n` byte draws. -/
def randRead (n : Nat) (r : RandState) : List Nat × RandState :=
  ((List.range n).map (fun j => r.f (r.pos + j) % 256), ⟨r.f, r.pos + n⟩)

/-- `FuzzinessAct`: `fuzziness > rand.Intn(100)`.  The `fuzziness`
viper setting is constant for the run and passed as a parameter. -/
def FuzzinessAct (fuzziness : Int) (r : RandState) : Bool × RandState :=
  let x := randIntn 100 r
  (decide (fuzziness > (x.1 : Int)), x.2)

/-- `fuzzExitMessage`: maybe replace the validator index, then maybe
replace the epoch, each with a fresh `rand.Intn(1000000)` draw guarded
by its own `FuzzinessAct` draw. -/
def fuzzExitMessage (fz : Int) (operation : VoluntaryExit) (r : RandState) :
    VoluntaryExit × RandState :=
  let a1 := FuzzinessAct fz r
  let s1 :=
    if a1.1 then
      let v := randIntn 1000000 a1.2
      ({ operation with validatorIndex := v.1 }, v.2)
    else (operation, a1.2)
  let a2 := FuzzinessAct fz s1.2
  if a2.1 then
    let e := randIntn 1000000 a2.2
    ({ s1.1 with epoch := e.1 }, e.2)
  else (s1.1, a2.2)

/-- `fuzzExitMessageWithRoot`: re-run `fuzzExitMessage`, then maybe
replace the whole 32-byte root with random bytes. -/
def fuzzExitMessageWithRoot (fz : Int) (operation : VoluntaryExit) (root : List Nat)
    (r : RandState) : (VoluntaryExit × List Nat) × RandState :=
  let m := fuzzExitMessage fz operation r
  let a := FuzzinessAct fz m.2
  if a.1 then
    let b := randRead 32 a.2
    ((m.1, b.1), b.2)
  else ((m.1, root), a.2)

/-- `fuzzExitMessageWithSignature`: re-run `fuzzExitMessage`, then
maybe replace the whole 96-byte signature with random bytes. -/
def fuzzExitMessageWithSignature (fz : Int) (operation : VoluntaryExit) (signature : List Nat)
    (r : RandState) : (VoluntaryExit × List Nat) × RandState :=
  let m := fuzzExitMessage fz operation r
  let a := FuzzinessAct fz m.2
  if a.1 then
    let b := randRead 96 a.2
    ((m.1, b.1), b.2)
  else ((m.1, signature), a.2)

/-- External collaborators and chain data, as consumed by process.go.
Functions that can fail in Go return `Except String`. -/
structure Env where
  /-- viper `fuzziness` setting (`viper.GetInt`). -/
  fuzziness : Int
  /-- viper `seed` setting (`viper.GetInt64`). -/
  seed : Int
  /-- `rand.Seed s` followed by subsequent draws: the PRNG stream
  determined by seed `s`. -/
  randFromSeed : Int → RandState
  /-- `VoluntaryExit.HashTreeRoot` (SSZ, external). -/
  htr : VoluntaryExit → List Nat
  /-- `ForkData{CurrentVersion, GenesisValidatorsRoot}.HashTreeRoot`. -/
  htrForkData : List Nat → List Nat → List Nat
  /-- `ssz.HashTreeRoot(SigningData{ObjectRoot, Domain})`. -/
  htrSigningData : List Nat → List Nat → List Nat
  /-- `e2types.BLSSignatureFromBytes`. -/
  sigFromBytes : List Nat → Except String (List Nat)
  /-- `e2types.BLSPublicKeyFromBytes`. -/
  pubFromBytes : List Nat → Except String (List Nat)
  /-- `sig.Verify(signingRoot, pubkey)`. -/
  verify : List Nat → List Nat → List Nat → Bool
  /-- `signing.SignRoot(account, nil, root, domain)`. -/
  signRoot : Account → List Nat → List Nat → Except String (List Nat)
  /-- `util.BestPublicKey(account)` (marshalled bytes). -/
  bestPublicKey : Account → Except String (List Nat)
  /-- `util.SeedFromMnemonic`. -/
  seedFromMnemonic : String → Except String (List Nat)
  /-- `ethutil.PrivateKeyFromSeedAndPath`. -/
  derivePrivkey : List Nat → String → Except String PrivKey
  /-- `util.ParseAccount(ctx, key, supplementary, true)`. -/
  parseAccount : String → List String → Except String Account
  /-- `c.chainInfo.FetchValidatorInfo` keyed by id string. -/
  fetchValidatorInfo : String → Except String ValidatorInfo
  /-- `c.chainInfo.Epoch`. -/
  chainEpoch : Nat
  /-- `c.chainInfo.GenesisValidatorsRoot`. -/
  chainGenesisValidatorsRoot : List Nat
  /-- `c.chainInfo.CurrentForkVersion`. -/
  chainCurrentForkVersion : List Nat
  /-- `c.chainInfo.VoluntaryExitDomainType` (4 bytes). -/
  voluntaryExitDomainType : List Nat
  /-- `c.chainInfo.Validators`. -/
  chainValidators : List ValidatorInfo
  /-- `util.ConnectToBeaconNode` outcome. -/
  connectResult : Except String Unit
  /-- `standardchaintime.New` outcome. -/
  chaintimeResult : Except String Unit
  /-- `c.obtainChainInfo` outcome (defined outside process.go). -/
  obtainChainInfoResult : Except String Unit
  /-- `c.writeChainInfoToFile` outcome (defined outside process.go). -/
  writeChainInfoResult : Except String Unit
  /-- `os.Stat(exitOperationFilename)` succeeding. -/
  exitFileExists : Bool
  /-- `os.ReadFile(exitOperationFilename)`. -/
  readExitFile : Except String String
  /-- `os.ReadFile` on a user-named path. -/
  readNamedFile : String → Except String String
  /-- `json.Unmarshal` into a `SignedVoluntaryExit`. -/
  parseSignedOperation : String → Except String SignedVoluntaryExit
  /-- `consensusClient.SubmitVoluntaryExit` (the argument is the
  possibly-nil `c.signedOperation` pointer). -/
  submitVoluntaryExit : Option SignedVoluntaryExit → Except String Unit

/-- The mutable fields of the `command` struct that process.go reads
or writes, plus the threaded global rand state. -/
structure Cmd where
  json : Bool
  offline : Bool
  prepareOffline : Bool
  mnemonic : String
  path : String
  privateKey : String
  validator : String
  signedOperationInput : String
  genesisValidatorsRoot : String
  forkVersion : String
  signedOperation : Option SignedVoluntaryExit
  domain : List Nat
  rand : RandState

/-- Hex digit characters for one byte, as printed by Go's `%x`. -/
def byteHex (b : Nat) : List Char :=
  [Nat.digitChar (b / 16 % 16), Nat.digitChar (b % 16)]

/-- `fmt.Sprintf("%#x", bs)` for a byte slice. -/
def hexOfBytes (bs : List Nat) : String :=
  "0x" ++ String.mk (bs.map byteHex).flatten

/-- `strings.TrimPrefix(s, "0x")`. -/
def trim0x (s : String) : String :=
  if s.toList.take 2 = ['0', 'x'] then String.mk (s.toList.drop 2) else s

/-- Value of one hex digit, as accepted by `hex.DecodeString`. -/
def hexDigitVal (c : Char) : Option Nat :=
  if '0' ≤ c ∧ c ≤ '9' then some (c.toNat - '0'.toNat)
  else if 'a' ≤ c ∧ c ≤ 'f' then some (c.toNat - 'a'.toNat + 10)
  else if 'A' ≤ c ∧ c ≤ 'F' then some (c.toNat - 'A'.toNat + 10)
  else none

/-- `hex.DecodeString`: fails on odd length or a non-hex character. -/
def hexDecodeChars : List Char → Option (List Nat)
  | [] => some []
  | [_] => none
  | c1 :: c2 :: rest =>
    match hexDigitVal c1, hexDigitVal c2, hexDecodeChars rest with
    | some hi, some lo, some tl => some ((16 * hi + lo) :: tl)
    | _, _, _ => none

/-- `hex.DecodeString` on a string. -/
def hexDecode (s : String) : Option (List Nat) :=
  hexDecodeChars s.toList

/-- Go's `copy(dst, src)`: overwrite the front of `dst` with `src`,
truncated to `dst`'s length; the result keeps `dst`'s length. -/
def copyInto (dst src : List Nat) : List Nat :=
  src.take dst.length ++ dst.drop (min src.length dst.length)

/-- After the stem `m/12381/3600/`, the regex `[0-9]+/0/0$`: a
non-empty digit run followed by exactly `/0/0`. -/
def digitRunThenZeroZero : List Char → Bool
  | [] => false
  | ch :: rest =>
    if ch.isDigit then
      (if rest = ['/', '0', '/', '0'] then true else digitRunThenZeroZero rest)
    else false

/-- The fixed stem of the validator-path regular expression. -/
def pathStem : List Char :=
  ['m', '/', '1', '2', '3', '8', '1', '/', '3', '6', '0', '0', '/']

/-- `validatorPath.Match`: the anchored regular expression
`^m/12381/3600/[0-9]+/0/0$`. -/
def validatorPathMatch (s : String) : Bool :=
  let cs := s.toList
  if cs.take pathStem.length = pathStem then digitRunThenZeroZero (cs.drop pathStem.length)
  else false

/-- `m/12381/3600/<i>/0/0`, as formatted in the scan loop. -/
def validatorKeyPath (i : Nat) : String :=
  "m/12381/3600/" ++ toString i ++ "/0/0"

/-- The scan bound in `generateOperationFromMnemonicAndValidator`. -/
def maxDistance : Nat := 1024

/-- `verifySignedOperation`: recompute the message root, decode the
signature, form the signing root, fetch the claimed validator by
index, decode its public key, and verify. -/
def verifySignedOperation (env : Env) (domain : List Nat) (op : SignedVoluntaryExit) :
    Except String Unit :=
  let root := env.htr op.message
  match env.sigFromBytes op.signature with
  | .error _ => .error "invalid signature"
  | .ok sig =>
    let signingRoot := env.htrSigningData root domain
    match env.fetchValidatorInfo (toString op.message.validatorIndex) with
    | .error e => .error e
    | .ok validatorInfo =>
      match env.pubFromBytes validatorInfo.pubkey with
      | .error e => .error ("invalid public key: " ++ e)
      | .ok pubkey =>
        if env.verify sig signingRoot pubkey then .ok ()
        else .error "signature does not verify"

/-- `InitializeFuzzingSeed`: reseed the global source from the viper
seed, or from a fresh `rand.Int63` draw when the setting is zero. -/
def initializeFuzzingSeed (env : Env) (r : RandState) : RandState :=
  if env.seed = 0 then env.randFromSeed (randInt63 r).1 else env.randFromSeed env.seed

/-- `createSignedOperation`: build the message, fuzz (checkpoint a),
root, fuzz (checkpoint b), sign, fuzz (checkpoint c), assemble. -/
def createSignedOperation (env : Env) (c : Cmd) (validator : ValidatorInfo)
    (account : Account) (epoch : Nat) :
    Except String (SignedVoluntaryExit × RandState) :=
  let r0 := initializeFuzzingSeed env c.rand
  match env.bestPublicKey account with
  | .error e => .error e
  | .ok _pubkey =>
    let operation : VoluntaryExit := { epoch := epoch, validatorIndex := validator.index }
    let m1 := fuzzExitMessage env.fuzziness operation r0
    let root := env.htr m1.1
    let m2 := fuzzExitMessageWithRoot env.fuzziness m1.1 root m1.2
    match env.signRoot account m2.1.2 c.domain with
    | .error e => .error ("failed to sign exit operation: " ++ e)
    | .ok signature =>
      let m3 := fuzzExitMessageWithSignature env.fuzziness m2.1.1 signature m2.2
      .ok ({ message := m3.1.1, signature := m3.1.2 }, m3.2)

/-- `generateOperationFromAccount`: store the created operation. -/
def generateOperationFromAccount (env : Env) (c : Cmd) (validator : ValidatorInfo)
    (account : Account) (epoch : Nat) : Except String Cmd :=
  match createSignedOperation env c validator account epoch with
  | .error e => .error e
  | .ok res => .ok { c with signedOperation := some res.1, rand := res.2 }

/-- The scan loop of `generateOperationFromMnemonicAndValidator`:
`for i := 0; ; i++ { if i == maxDistance { break } ... }`.  Fuel
counts the remaining iterations before the bound check fires, so
`scanValidatorKeysFrom env c seed v maxDistance 0` visits indices
`0 … maxDistance-1` and stops, returning `c` unchanged (the Go loop
breaks and the function returns nil). -/
def scanValidatorKeysFrom (env : Env) (c : Cmd) (seed : List Nat)
    (validatorInfo : ValidatorInfo) : Nat → Nat → Except String Cmd
  | 0, _ => .ok c
  | fuel + 1, i =>
    match env.derivePrivkey seed (validatorKeyPath i) with
    | .error e => .error ("failed to generate validator private key: " ++ e)
    | .ok validatorPrivkey =>
      if validatorPrivkey.pubkey = validatorInfo.pubkey then
        match env.parseAccount c.mnemonic [validatorKeyPath i] with
        | .error e => .error ("failed to create withdrawal account: " ++ e)
        | .ok validatorAccount =>
          generateOperationFromAccount env c validatorInfo validatorAccount env.chainEpoch
      else
        scanValidatorKeysFrom env c seed validatorInfo fuel (i + 1)

/-- `generateOperationFromMnemonicAndValidator`. -/
def generateOperationFromMnemonicAndValidator (env : Env) (c : Cmd) : Except String Cmd :=
  match env.seedFromMnemonic c.mnemonic with
  | .error e => .error e
  | .ok seed =>
    match env.fetchValidatorInfo c.validator with
    | .error e => .error e
    | .ok validatorInfo => scanValidatorKeysFrom env c seed validatorInfo maxDistance 0

/-- `generateOperationFromPrivateKey`. -/
def generateOperationFromPrivateKey (env : Env) (c : Cmd) : Except String Cmd :=
  match env.parseAccount c.privateKey [] with
  | .error e => .error ("failed to create validator account: " ++ e)
  | .ok validatorAccount =>
    match env.bestPublicKey validatorAccount with
    | .error e => .error e
    | .ok validatorPubkey =>
      match env.fetchValidatorInfo (hexOfBytes validatorPubkey) with
      | .error e => .error e
      | .ok validatorInfo =>
        generateOperationFromAccount env c validatorInfo validatorAccount env.chainEpoch

/-- `generateOperationFromSeedAndPath` (the `validators` map argument
is unused by the Go body and kept for shape). -/
def generateOperationFromSeedAndPath (env : Env) (c : Cmd)
    (_validators : List ValidatorInfo) (seed : List Nat) (path : String) :
    Except String Cmd :=
  match env.derivePrivkey seed path with
  | .error e => .error ("failed to generate validator private key: " ++ e)
  | .ok validatorPrivkey =>
    generateOperationFromPrivateKey env { c with privateKey := hexOfBytes validatorPrivkey.marshal }

/-- `generateOperationFromMnemonicAndPath`: reject a path that fails
the validator-path regular expression. -/
def generateOperationFromMnemonicAndPath (env : Env) (c : Cmd) : Except String Cmd :=
  match env.seedFromMnemonic c.mnemonic with
  | .error e => .error e
  | .ok seed =>
    if validatorPathMatch c.path then
      match generateOperationFromSeedAndPath env c env.chainValidators seed c.path with
      | .error e => .error ("failed to generate operation from seed and path: " ++ e)
      | .ok c1 => .ok c1
    else
      .error ("path " ++ c.path ++ " does not match EIP-2334 format for a validator")

/-- `generateOperationFromValidator`. -/
def generateOperationFromValidator (env : Env) (c : Cmd) : Except String Cmd :=
  match env.fetchValidatorInfo c.validator with
  | .error e => .error e
  | .ok validatorInfo =>
    match env.parseAccount c.validator [] with
    | .error e => .error e
    | .ok validatorAccount =>
      generateOperationFromAccount env c validatorInfo validatorAccount env.chainEpoch

/-- The character `{` (written via its code point). -/
def leftBrace : Char := Char.ofNat 123

/-- `obtainOperationFromInput`: a value not beginning with a brace is
a file name to read; then JSON-decode and verify.  (In Go the decoded
operation is stored before verification; on the error paths the
caller aborts, so only the success state is observable.) -/
def obtainOperationFromInput (env : Env) (c : Cmd) : Except String Cmd :=
  match (if c.signedOperationInput.toList.head? = some leftBrace then
           Except.ok c
         else
           match env.readNamedFile c.signedOperationInput with
           | .error e => .error ("failed to read input file: " ++ e)
           | .ok data => .ok { c with signedOperationInput := data }) with
  | .error e => .error e
  | .ok c1 =>
    match env.parseSignedOperation c1.signedOperationInput with
    | .error e => .error ("failed to parse exit operation input: " ++ e)
    | .ok op =>
      match verifySignedOperation env c1.domain op with
      | .error e => .error e
      | .ok _ => .ok { c1 with signedOperation := some op }

/-- `obtainOperationFromFile`: stat, read, JSON-decode, verify. -/
def obtainOperationFromFile (env : Env) (c : Cmd) : Except String Cmd :=
  if env.exitFileExists = false then
    .error "failed to read exit operation file: file does not exist"
  else
    match env.readExitFile with
    | .error e => .error ("failed to read exit operation file: " ++ e)
    | .ok data =>
      match env.parseSignedOperation data with
      | .error e => .error ("failed to parse exit operation file: " ++ e)
      | .ok op =>
        match verifySignedOperation env c.domain op with
        | .error e => .error e
        | .ok _ => .ok { c with signedOperation := some op }

/-- `obtainOperationFromFileOrInput`. -/
def obtainOperationFromFileOrInput (env : Env) (c : Cmd) : Except String Cmd :=
  if c.signedOperationInput ≠ "" then obtainOperationFromInput env c
  else obtainOperationFromFile env c

/-- `obtainOperation`: the input-source dispatch. -/
def obtainOperation (env : Env) (c : Cmd) : Except String Cmd :=
  if (c.mnemonic = "" ∨ c.path = "") ∧ c.privateKey = "" ∧ c.validator = "" then
    match obtainOperationFromFileOrInput env c with
    | .ok c1 => .ok c1
    | .error e =>
      if c.signedOperationInput ≠ "" then
        .error ("failed to obtain supplied signed operation: " ++ e)
      else
        .error ("no account, mnemonic or private key specified, and no exit-operation.json file loaded: " ++ e)
  else if c.mnemonic ≠ "" then
    (if c.path ≠ "" then generateOperationFromMnemonicAndPath env c
     else if c.validator ≠ "" then generateOperationFromMnemonicAndValidator env c
     else .error "mnemonic must be supplied with either a path or validator")
  else if c.privateKey ≠ "" then generateOperationFromPrivateKey env c
  else if c.validator ≠ "" then generateOperationFromValidator env c
  else .error "unsupported combination of inputs; see help for details of supported combinations"

/-- The branch selected by `obtainOperation`'s dispatch, as a tag. -/
inductive ObtainRoute where
  | fromFileOrInput
  | mnemonicAndPath
  | mnemonicAndValidator
  | fromPrivateKey
  | fromValidator
  | errMnemonicNeedsPathOrValidator
  | errUnsupportedCombination
deriving DecidableEq

/-- Which branch `obtainOperation`'s conditionals select, as a pure
function of the four input strings (same conditional structure). -/
def obtainRoute (mnemonic path privateKey validator : String) : ObtainRoute :=
  if (mnemonic = "" ∨ path = "") ∧ privateKey = "" ∧ validator = "" then .fromFileOrInput
  else if mnemonic ≠ "" then
    (if path ≠ "" then .mnemonicAndPath
     else if validator ≠ "" then .mnemonicAndValidator
     else .errMnemonicNeedsPathOrValidator)
  else if privateKey ≠ "" then .fromPrivateKey
  else if validator ≠ "" then .fromValidator
  else .errUnsupportedCombination

/-- The action `obtainOperation` takes for each selected branch. -/
def interpRoute (route : ObtainRoute) (env : Env) (c : Cmd) : Except String Cmd :=
  match route with
  | .fromFileOrInput =>
    (match obtainOperationFromFileOrInput env c with
     | .ok c1 => .ok c1
     | .error e =>
       if c.signedOperationInput ≠ "" then
         .error ("failed to obtain supplied signed operation: " ++ e)
       else
         .error ("no account, mnemonic or private key specified, and no exit-operation.json file loaded: " ++ e))
  | .mnemonicAndPath => generateOperationFromMnemonicAndPath env c
  | .mnemonicAndValidator => generateOperationFromMnemonicAndValidator env c
  | .fromPrivateKey => generateOperationFromPrivateKey env c
  | .fromValidator => generateOperationFromValidator env c
  | .errMnemonicNeedsPathOrValidator =>
    .error "mnemonic must be supplied with either a path or validator"
  | .errUnsupportedCombination =>
    .error "unsupported combination of inputs; see help for details of supported combinations"

/-- `obtainGenesisValidatorsRoot`: explicit hex input wins over chain
info; reject bad hex or a wrong length. -/
def obtainGenesisValidatorsRoot (env : Env) (c : Cmd) : Except String (List Nat) :=
  if c.genesisValidatorsRoot ≠ "" then
    match hexDecode (trim0x c.genesisValidatorsRoot) with
    | none => .error "invalid genesis validators root supplied"
    | some root =>
      if root.length ≠ 32 then .error "invalid length for genesis validators root"
      else .ok root
  else .ok env.chainGenesisValidatorsRoot

/-- `obtainForkVersion`: explicit hex input wins over chain info;
reject bad hex or a wrong length. -/
def obtainForkVersion (env : Env) (c : Cmd) : Except String (List Nat) :=
  if c.forkVersion ≠ "" then
    match hexDecode (trim0x c.forkVersion) with
    | none => .error "invalid fork version supplied"
    | some version =>
      if version.length ≠ 4 then .error "invalid length for fork version"
      else .ok version
  else .ok env.chainCurrentForkVersion

/-- `generateDomain`: 32-byte domain, `copy` of the 4-byte domain type
into the front and of the fork-data root into bytes 4…31. -/
def generateDomain (env : Env) (c : Cmd) : Except String Cmd :=
  match obtainGenesisValidatorsRoot env c with
  | .error e => .error e
  | .ok genesisValidatorsRoot =>
    match obtainForkVersion env c with
    | .error e => .error e
    | .ok forkVersion =>
      let root := env.htrForkData forkVersion genesisValidatorsRoot
      let d0 := List.replicate 32 0
      let d1 := copyInto d0 env.voluntaryExitDomainType
      let d2 := d1.take 4 ++ copyInto (d1.drop 4) root
      .ok { c with domain := d2 }

/-- `validateOperation`: the Validated step of the workflow. -/
def validateOperation (_c : Cmd) : Bool × String :=
  (true, "")

/-- `setup`: nothing to do offline; otherwise connect and build the
chaintime service. -/
def setup (env : Env) (c : Cmd) : Except String Unit :=
  if c.offline then .ok ()
  else
    match env.connectResult with
    | .error e => .error ("failed to connect to consensus node: " ++ e)
    | .ok _ =>
      match env.chaintimeResult with
      | .error e => .error ("failed to create chaintime service: " ++ e)
      | .ok _ => .ok ()

/-- `broadcastOperation`: submit whatever `c.signedOperation` holds
(possibly nil). -/
def broadcastOperation (env : Env) (c : Cmd) : Except String Unit :=
  env.submitVoluntaryExit c.signedOperation

/-- `process`: the orchestrating workflow.  The second component
records whether `SubmitVoluntaryExit` was invoked. -/
def process (env : Env) (c : Cmd) : Except String Unit × Bool :=
  match setup env c with
  | .error e => (.error e, false)
  | .ok _ =>
    match env.obtainChainInfoResult with
    | .error e => (.error e, false)
    | .ok _ =>
      if c.prepareOffline then (env.writeChainInfoResult, false)
      else
        match generateDomain env c with
        | .error e => (.error e, false)
        | .ok c1 =>
          match obtainOperation env c1 with
          | .error e => (.error e, false)
          | .ok c2 =>
            let v := validateOperation c2
            if v.1 = false then (.error ("operation failed validation: " ++ v.2), false)
            else if c2.json || c2.offline then (.ok (), false)
            else (broadcastOperation env c2, true)

/-! ### Concrete environments and commands for witnesses -/

/-- A fully computable environment in which every collaborator
succeeds. -/
def envBase : Env :=
  { fuzziness := 0
    seed := 1
    randFromSeed := fun _ => ⟨fun _ => 0, 0⟩
    htr := fun m => [m.epoch, m.validatorIndex]
    htrForkData := fun _ _ => List.replicate 32 1
    htrSigningData := fun root d => root ++ d
    sigFromBytes := fun bs => .ok bs
    pubFromBytes := fun bs => .ok bs
    verify := fun _ _ _ => true
    signRoot := fun _ _ _ => .ok [0]
    bestPublicKey := fun _ => .ok [2]
    seedFromMnemonic := fun _ => .ok []
    derivePrivkey := fun _ _ => .ok ⟨[], [0]⟩
    parseAccount := fun _ _ => .ok ⟨5⟩
    fetchValidatorInfo := fun _ => .ok ⟨9, [2]⟩
    chainEpoch := 7
    chainGenesisValidatorsRoot := List.replicate 32 0
    chainCurrentForkVersion := [0, 0, 0, 0]
    voluntaryExitDomainType := [4, 0, 0, 0]
    chainValidators := []
    connectResult := .ok ()
    chaintimeResult := .ok ()
    obtainChainInfoResult := .ok ()
    writeChainInfoResult := .ok ()
    exitFileExists := true
    readExitFile := .ok "filedata"
    readNamedFile := fun _ => .ok "filedata"
    parseSignedOperation := fun _ => .ok ⟨⟨7, 9⟩, [1]⟩
    submitVoluntaryExit := fun _ => .ok () }

/-- A command with no inputs set. -/
def cBase : Cmd :=
  { json := false
    offline := false
    prepareOffline := false
    mnemonic := ""
    path := ""
    privateKey := ""
    validator := ""
    signedOperationInput := ""
    genesisValidatorsRoot := ""
    forkVersion := ""
    signedOperation := none
    domain := []
    rand := ⟨fun _ => 0, 0⟩ }

/-- The domain `generateDomain` computes under `envBase`. -/
def domW : List Nat := [4, 0, 0, 0] ++ List.replicate 28 1

/-- `envBase` with a verifier that rejects every signature. -/
def envBad : Env := { envBase with verify := fun _ _ _ => false }

/-- `envBase` with a target validator whose key the derivation
function never produces (derived pubkey `[0]`, target `[9]`). -/
def envScan : Env := { envBase with fetchValidatorInfo := fun _ => .ok ⟨0, [9]⟩ }

/-- `envBase` with structured signing and verification so that the
build-then-verify round trip is checkable by computation. -/
def envRT : Env :=
  { envBase with
    pubFromBytes := fun _ => .ok [5]
    fetchValidatorInfo := fun s => if s = "9" then .ok ⟨9, [2]⟩ else .error "unknown validator"
    verify := fun s m p => decide (s = m ++ p)
    signRoot := fun a root d => .ok (root ++ d ++ [a.id]) }

/-- Command selecting the mnemonic+validator scan route. -/
def cScan : Cmd := { cBase with mnemonic := "word", validator := "1" }

/-- Command with a private key, JSON output requested. -/
def cC1 : Cmd := { cBase with privateKey := "k", json := true }

/-- Command with both a private key and a validator set. -/
def cC4 : Cmd := { cBase with privateKey := "k", validator := "vv" }

/-- Command in offline mode with no key-material inputs. -/
def cC9 : Cmd := { cBase with offline := true }

/-- Command with a malformed genesis-validators-root hex string. -/
def cHexBad : Cmd := { cBase with genesisValidatorsRoot := "zz" }

/-- Command carrying a pre-generated domain for round-trip checks. -/
def cRT : Cmd := { cBase with domain := [1] }

/-- The operation generated under `envBase`/`envBad` (epoch 7,
validator index 9, stub signature `[0]`). -/
def opGen : SignedVoluntaryExit := { message := { epoch := 7, validatorIndex := 9 }, signature := [0] }

/-- The operation `envBase.parseSignedOperation` decodes. -/
def opFile : SignedVoluntaryExit := { message := { epoch := 7, validatorIndex := 9 }, signature := [1] }

/-- The operation built by `createSignedOperation` under `envRT` for
epoch 3 and validator index 9. -/
def opRT : SignedVoluntaryExit := { message := { epoch := 3, validatorIndex := 9 }, signature := [3, 9, 1, 5] }

/-- The rand state after one `createSignedOperation` run (eight draws
consumed from the reseeded zero stream). -/
def rand8 : RandState := ⟨fun _ => 0, 8⟩

/-- `cC1` after domain generation. -/
def cC1dom : Cmd := { cC1 with domain := domW }

/-- `cC1` after domain generation and operation creation. -/
def cC1done : Cmd := { cC1dom with signedOperation := some opGen, rand := rand8 }

/-- `cC9` after domain generation. -/
def cC9dom : Cmd := { cC9 with domain := domW }

/-- `cC9` after domain generation and file load. -/
def cC9done : Cmd := { cC9dom with signedOperation := some opFile }

/-- `cC4` after the (silently selected) private-key route. -/
def cC4done : Cmd := { cC4 with signedOperation := some opGen, rand := rand8 }

/-! ### Basic lemmas about the fuzz draws -/

theorem FuzzinessAct_zero (r : RandState) :
    FuzzinessAct 0 r = (false, ⟨r.f, r.pos + 1⟩) := by
  simp [FuzzinessAct, randIntn]
  omega

theorem FuzzinessAct_hundred (r : RandState) :
    FuzzinessAct 100 r = (true, ⟨r.f, r.pos + 1⟩) := by
  simp [FuzzinessAct, randIntn]
  omega

theorem fuzzExitMessage_zero (op : VoluntaryExit) (r : RandState) :
    fuzzExitMessage 0 op r = (op, ⟨r.f, r.pos + 2⟩) := by
  simp [fuzzExitMessage, FuzzinessAct_zero]

theorem fuzzExitMessageWithRoot_zero (op : VoluntaryExit) (root : List Nat) (r : RandState) :
    fuzzExitMessageWithRoot 0 op root r = ((op, root), ⟨r.f, r.pos + 3⟩) := by
  simp [fuzzExitMessageWithRoot, fuzzExitMessage_zero, FuzzinessAct_zero]

theorem fuzzExitMessageWithSignature_zero (op : VoluntaryExit) (signature : List Nat)
    (r : RandState) :
    fuzzExitMessageWithSignature 0 op signature r = ((op, signature), ⟨r.f, r.pos + 3⟩) := by
  simp [fuzzExitMessageWithSignature, fuzzExitMessage_zero, FuzzinessAct_zero]

theorem fuzzExitMessage_hundred (op : VoluntaryExit) (r : RandState) :
    fuzzExitMessage 100 op r =
      ({ epoch := r.f (r.pos + 3) % 1000000, validatorIndex := r.f (r.pos + 1) % 1000000 },
       ⟨r.f, r.pos + 4⟩) := by
  simp [fuzzExitMessage, FuzzinessAct_hundred, randIntn]

theorem fuzzExitMessageWithRoot_hundred (op : VoluntaryExit) (root : List Nat) (r : RandState) :
    fuzzExitMessageWithRoot 100 op root r =
      (({ epoch := r.f (r.pos + 3) % 1000000, validatorIndex := r.f (r.pos + 1) % 1000000 },
        (List.range 32).map (fun j => r.f (r.pos + 5 + j) % 256)),
       ⟨r.f, r.pos + 37⟩) := by
  simp [fuzzExitMessageWithRoot, fuzzExitMessage_hundred, FuzzinessAct_hundred, randRead]

theorem fuzzExitMessageWithSignature_hundred (op : VoluntaryExit) (signature : List Nat)
    (r : RandState) :
    fuzzExitMessageWithSignature 100 op signature r =
      (({ epoch := r.f (r.pos + 3) % 1000000, validatorIndex := r.f (r.pos + 1) % 1000000 },
        (List.range 96).map (fun j => r.f (r.pos + 5 + j) % 256)),
       ⟨r.f, r.pos + 101⟩) := by
  simp [fuzzExitMessageWithSignature, fuzzExitMessage_hundred, FuzzinessAct_hundred, randRead]

theorem fuzzExitMessage_validatorIndex (fz : Int) (op : VoluntaryExit) (r : RandState) :
    (fuzzExitMessage fz op r).1.validatorIndex =
      if fz > ((r.f r.pos % 100 : Nat) : Int) then r.f (r.pos + 1) % 1000000
      else op.validatorIndex := by
  by_cases h1 : ((r.f r.pos : Int) % 100 < fz)
  · by_cases h2 : ((r.f (r.pos + 1 + 1) : Int) % 100 < fz) <;>
      simp [fuzzExitMessage, FuzzinessAct, randIntn, h1, h2, Nat.add_assoc]
  · by_cases h2 : ((r.f (r.pos + 1) : Int) % 100 < fz) <;>
      simp [fuzzExitMessage, FuzzinessAct, randIntn, h1, h2, Nat.add_assoc]

theorem fuzzExitMessage_epoch (fz : Int) (op : VoluntaryExit) (r : RandState) :
    (fuzzExitMessage fz op r).1.epoch =
      if fz > ((r.f r.pos % 100 : Nat) : Int) then
        (if fz > ((r.f (r.pos + 2) % 100 : Nat) : Int) then r.f (r.pos + 3) % 1000000
         else op.epoch)
      else
        (if fz > ((r.f (r.pos + 1) % 100 : Nat) : Int) then r.f (r.pos + 2) % 1000000
         else op.epoch) := by
  by_cases h1 : ((r.f r.pos : Int) % 100 < fz)
  · by_cases h2 : ((r.f (r.pos + 1 + 1) : Int) % 100 < fz) <;>
      simp [fuzzExitMessage, FuzzinessAct, randIntn, h1, h2, Nat.add_assoc]
  · by_cases h2 : ((r.f (r.pos + 1) : Int) % 100 < fz) <;>
      simp [fuzzExitMessage, FuzzinessAct, randIntn, h1, h2, Nat.add_assoc]

theorem fuzzExitMessageWithRoot_message (fz : Int) (op : VoluntaryExit) (root : List Nat)
    (r : RandState) :
    (fuzzExitMessageWithRoot fz op root r).1.1 = (fuzzExitMessage fz op r).1 := by
  simp only [fuzzExitMessageWithRoot]
  split <;> rfl

theorem fuzzExitMessageWithRoot_root (fz : Int) (op : VoluntaryExit) (root : List Nat)
    (r : RandState) :
    (fuzzExitMessageWithRoot fz op root r).1.2 =
      if fz > (((fuzzExitMessage fz op r).2.f (fuzzExitMessage fz op r).2.pos % 100 : Nat) : Int)
      then (List.range 32).map
        (fun j => (fuzzExitMessage fz op r).2.f ((fuzzExitMessage fz op r).2.pos + 1 + j) % 256)
      else root := by
  simp only [fuzzExitMessageWithRoot]
  generalize fuzzExitMessage fz op r = m
  obtain ⟨msg, r1⟩ := m
  by_cases h : ((r1.f r1.pos : Int) % 100 < fz) <;>
    simp [FuzzinessAct, randIntn, randRead, h]

theorem fuzzExitMessageWithSignature_signature (fz : Int) (op : VoluntaryExit)
    (signature : List Nat) (r : RandState) :
    (fuzzExitMessageWithSignature fz op signature r).1.2 =
      if fz > (((fuzzExitMessage fz op r).2.f (fuzzExitMessage fz op r).2.pos % 100 : Nat) : Int)
      then (List.range 96).map
        (fun j => (fuzzExitMessage fz op r).2.f ((fuzzExitMessage fz op r).2.pos + 1 + j) % 256)
      else signature := by
  simp only [fuzzExitMessageWithSignature]
  generalize fuzzExitMessage fz op r = m
  obtain ⟨msg, r1⟩ := m
  by_cases h : ((r1.f r1.pos : Int) % 100 < fz) <;>
    simp [FuzzinessAct, randIntn, randRead, h]

theorem fuzzExitMessageWithSignature_message (fz : Int) (op : VoluntaryExit)
    (signature : List Nat) (r : RandState) :
    (fuzzExitMessageWithSignature fz op signature r).1.1 = (fuzzExitMessage fz op r).1 := by
  simp only [fuzzExitMessageWithSignature]
  split <;> rfl

/-! ### Shape and preservation lemmas -/

theorem generateDomain_shape (env : Env) (c c' : Cmd)
    (h : generateDomain env c = .ok c') :
    ∃ d, c' = { c with domain := d } := by
  unfold generateDomain at h
  split at h
  · exact absurd h (by simp)
  · split at h
    · exact absurd h (by simp)
    · simp only [Except.ok.injEq] at h
      exact ⟨_, h.symm⟩

theorem generateOperationFromAccount_shape (env : Env) (c : Cmd)
    (validator : ValidatorInfo) (account : Account) (epoch : Nat) (c' : Cmd)
    (h : generateOperationFromAccount env c validator account epoch = .ok c') :
    ∃ op r', c' = { c with signedOperation := some op, rand := r' } := by
  unfold generateOperationFromAccount at h
  split at h
  · exact absurd h (by simp)
  · simp only [Except.ok.injEq] at h
    exact ⟨_, _, h.symm⟩

theorem generateOperationFromPrivateKey_shape (env : Env) (c c' : Cmd)
    (h : generateOperationFromPrivateKey env c = .ok c') :
    ∃ op r', c' = { c with signedOperation := some op, rand := r' } := by
  unfold generateOperationFromPrivateKey at h
  split at h
  · exact absurd h (by simp)
  · split at h
    · exact absurd h (by simp)
    · split at h
      · exact absurd h (by simp)
      · exact generateOperationFromAccount_shape _ _ _ _ _ _ h

theorem flags_of_privateKey (env : Env) (c c' : Cmd)
    (h : generateOperationFromPrivateKey env c = .ok c') :
    c'.json = c.json ∧ c'.offline = c.offline := by
  obtain ⟨op, r', rfl⟩ := generateOperationFromPrivateKey_shape env c c' h
  exact ⟨rfl, rfl⟩

theorem flags_of_seedAndPath (env : Env) (c : Cmd) (validators : List ValidatorInfo)
    (seed : List Nat) (path : String) (c' : Cmd)
    (h : generateOperationFromSeedAndPath env c validators seed path = .ok c') :
    c'.json = c.json ∧ c'.offline = c.offline := by
  unfold generateOperationFromSeedAndPath at h
  split at h
  · exact absurd h (by simp)
  · simpa using flags_of_privateKey _ _ _ h

theorem flags_of_mnemonicAndPath (env : Env) (c c' : Cmd)
    (h : generateOperationFromMnemonicAndPath env c = .ok c') :
    c'.json = c.json ∧ c'.offline = c.offline := by
  unfold generateOperationFromMnemonicAndPath at h
  split at h
  · exact absurd h (by simp)
  · split at h
    · split at h
      · exact absurd h (by simp)
      · simp only [Except.ok.injEq] at h
        subst h
        rename_i heq
        exact flags_of_seedAndPath _ _ _ _ _ _ heq
    · exact absurd h (by simp)

theorem scanValidatorKeysFrom_shape (env : Env) (c : Cmd) (seed : List Nat)
    (validatorInfo : ValidatorInfo) :
    ∀ fuel i c', scanValidatorKeysFrom env c seed validatorInfo fuel i = .ok c' →
      c' = c ∨ ∃ op r', c' = { c with signedOperation := some op, rand := r' } := by
  intro fuel
  induction fuel with
  | zero =>
    intro i c' h
    simp only [scanValidatorKeysFrom, Except.ok.injEq] at h
    exact Or.inl h.symm
  | succ fuel ih =>
    intro i c' h
    unfold scanValidatorKeysFrom at h
    split at h
    · exact absurd h (by simp)
    · split at h
      · split at h
        · exact absurd h (by simp)
        · exact Or.inr (generateOperationFromAccount_shape _ _ _ _ _ _ h)
      · exact ih _ _ h

theorem flags_of_mnemonicAndValidator (env : Env) (c c' : Cmd)
    (h : generateOperationFromMnemonicAndValidator env c = .ok c') :
    c'.json = c.json ∧ c'.offline = c.offline := by
  unfold generateOperationFromMnemonicAndValidator at h
  split at h
  · exact absurd h (by simp)
  · split at h
    · exact absurd h (by simp)
    · rcases scanValidatorKeysFrom_shape _ _ _ _ _ _ _ h with rfl | ⟨op, r', rfl⟩
      · exact ⟨rfl, rfl⟩
      · exact ⟨rfl, rfl⟩

theorem flags_of_fromValidator (env : Env) (c c' : Cmd)
    (h : generateOperationFromValidator env c = .ok c') :
    c'.json = c.json ∧ c'.offline = c.offline := by
  unfold generateOperationFromValidator at h
  split at h
  · exact absurd h (by simp)
  · split at h
    · exact absurd h (by simp)
    · obtain ⟨op, r', rfl⟩ := generateOperationFromAccount_shape _ _ _ _ _ _ h
      exact ⟨rfl, rfl⟩

theorem flags_of_fromInput (env : Env) (c c' : Cmd)
    (h : obtainOperationFromInput env c = .ok c') :
    c'.json = c.json ∧ c'.offline = c.offline := by
  unfold obtainOperationFromInput at h
  split at h
  · exact absurd h (by simp)
  · rename_i c1 hc1
    split at h
    · exact absurd h (by simp)
    · split at h
      · exact absurd h (by simp)
      · simp only [Except.ok.injEq] at h
        subst h
        split at hc1
        · simp only [Except.ok.injEq] at hc1
          subst hc1
          exact ⟨rfl, rfl⟩
        · split at hc1
          · exact absurd hc1 (by simp)
          · simp only [Except.ok.injEq] at hc1
            subst hc1
            exact ⟨rfl, rfl⟩

theorem flags_of_fromFile (env : Env) (c c' : Cmd)
    (h : obtainOperationFromFile env c = .ok c') :
    c'.json = c.json ∧ c'.offline = c.offline := by
  unfold obtainOperationFromFile at h
  split at h
  · exact absurd h (by simp)
  · split at h
    · exact absurd h (by simp)
    · split at h
      · exact absurd h (by simp)
      · split at h
        · exact absurd h (by simp)
        · simp only [Except.ok.injEq] at h
          subst h
          exact ⟨rfl, rfl⟩

theorem scanValidatorKeysFrom_no_match (env : Env) (c : Cmd) (seed : List Nat)
    (vinfo : ValidatorInfo) :
    ∀ fuel i,
      (∀ k, i ≤ k → k < i + fuel →
        ∃ pk, env.derivePrivkey seed (validatorKeyPath k) = .ok pk ∧
          pk.pubkey ≠ vinfo.pubkey) →
      scanValidatorKeysFrom env c seed vinfo fuel i = .ok c := by
  intro fuel
  induction fuel with
  | zero =>
    intro i _
    rfl
  | succ fuel ih =>
    intro i h
    obtain ⟨pk, hd, hne⟩ := h i (le_refl i) (by omega)
    unfold scanValidatorKeysFrom
    rw [hd]
    simp only [if_neg hne]
    exact ih (i + 1) (fun k hk1 hk2 => h k (by omega) (by omega))

theorem scanValidatorKeysFrom_first_match (env : Env) (c : Cmd) (seed : List Nat)
    (vinfo : ValidatorInfo) :
    ∀ fuel i i₀ pk, i ≤ i₀ → i₀ < i + fuel →
      env.derivePrivkey seed (validatorKeyPath i₀) = .ok pk →
      pk.pubkey = vinfo.pubkey →
      (∀ j, i ≤ j → j < i₀ →
        ∃ pkj, env.derivePrivkey seed (validatorKeyPath j) = .ok pkj ∧
          pkj.pubkey ≠ vinfo.pubkey) →
      scanValidatorKeysFrom env c seed vinfo fuel i =
        (match env.parseAccount c.mnemonic [validatorKeyPath i₀] with
         | .error e => .error ("failed to create withdrawal account: " ++ e)
         | .ok validatorAccount =>
           generateOperationFromAccount env c vinfo validatorAccount env.chainEpoch) := by
  intro fuel
  induction fuel with
  | zero =>
    intro i i₀ pk h1 h2 h3 h4 h5
    omega
  | succ fuel ih =>
    intro i i₀ pk hle hlt hd hpk hmin
    unfold scanValidatorKeysFrom
    rcases Nat.eq_or_lt_of_le hle with rfl | hlt'
    · rw [hd]
      simp only [if_pos hpk]
    · obtain ⟨pkj, hdj, hnej⟩ := hmin i (le_refl i) hlt'
      rw [hdj]
      simp only [if_neg hnej]
      exact ih (i + 1) i₀ pk (by omega) (by omega) hd hpk
        (fun j hj1 hj2 => hmin j (by omega) hj2)

theorem flags_of_obtainOperation (env : Env) (c c' : Cmd)
    (h : obtainOperation env c = .ok c') :
    c'.json = c.json ∧ c'.offline = c.offline := by
  unfold obtainOperation at h
  split at h
  · split at h
    · rename_i heq
      simp only [Except.ok.injEq] at h
      subst h
      unfold obtainOperationFromFileOrInput at heq
      split at heq
      · exact flags_of_fromInput _ _ _ heq
      · exact flags_of_fromFile _ _ _ heq
    · split at h <;> exact absurd h (by simp)
  · split at h
    · split at h
      · exact flags_of_mnemonicAndPath _ _ _ h
      · split at h
        · exact flags_of_mnemonicAndValidator _ _ _ h
        · exact absurd h (by simp)
    · split at h
      · exact flags_of_privateKey _ _ _ h
      · split at h
        · exact flags_of_fromValidator _ _ _ h
        · exact absurd h (by simp)

/-! ### Claim theorems -/

/-- C6: at each fuzz checkpoint each eligible field is mutated exactly
when its independently drawn percentage in `[0,100)` is below the
intensity, at every intensity: the first two conjuncts give the
per-field conditional semantics of the message fields, the last four
extend it to the root and signature checkpoints (whose message
component re-runs the message fuzz, and whose own field is replaced
with fresh random bytes iff its own next draw is below the intensity);
at intensity 0 all three fuzz functions leave the message, root and
signature bitwise unchanged; at intensity 100 every eligible field at
every checkpoint is replaced by a fresh draw. -/
theorem C6_fuzz_intensity_semantics (fz : Int) (op : VoluntaryExit)
    (root signature : List Nat) (r : RandState) :
    ((fuzzExitMessage fz op r).1.validatorIndex =
        if fz > ((r.f r.pos % 100 : Nat) : Int) then r.f (r.pos + 1) % 1000000
        else op.validatorIndex)
    ∧ ((fuzzExitMessage fz op r).1.epoch =
        if fz > ((r.f r.pos % 100 : Nat) : Int) then
          (if fz > ((r.f (r.pos + 2) % 100 : Nat) : Int) then r.f (r.pos + 3) % 1000000
           else op.epoch)
        else
          (if fz > ((r.f (r.pos + 1) % 100 : Nat) : Int) then r.f (r.pos + 2) % 1000000
           else op.epoch))
    ∧ fuzzExitMessage 0 op r = (op, ⟨r.f, r.pos + 2⟩)
    ∧ fuzzExitMessageWithRoot 0 op root r = ((op, root), ⟨r.f, r.pos + 3⟩)
    ∧ fuzzExitMessageWithSignature 0 op signature r = ((op, signature), ⟨r.f, r.pos + 3⟩)
    ∧ fuzzExitMessage 100 op r =
        ({ epoch := r.f (r.pos + 3) % 1000000, validatorIndex := r.f (r.pos + 1) % 1000000 },
         ⟨r.f, r.pos + 4⟩)
    ∧ fuzzExitMessageWithRoot 100 op root r =
        (({ epoch := r.f (r.pos + 3) % 1000000, validatorIndex := r.f (r.pos + 1) % 1000000 },
          (List.range 32).map (fun j => r.f (r.pos + 5 + j) % 256)),
         ⟨r.f, r.pos + 37⟩)
    ∧ fuzzExitMessageWithSignature 100 op signature r =
        (({ epoch := r.f (r.pos + 3) % 1000000, validatorIndex := r.f (r.pos + 1) % 1000000 },
          (List.range 96).map (fun j => r.f (r.pos + 5 + j) % 256)),
         ⟨r.f, r.pos + 101⟩)
    ∧ (fuzzExitMessageWithRoot fz op root r).1.1 = (fuzzExitMessage fz op r).1
    ∧ (fuzzExitMessageWithSignature fz op signature r).1.1 = (fuzzExitMessage fz op r).1
    ∧ ((fuzzExitMessageWithRoot fz op root r).1.2 =
        if fz > (((fuzzExitMessage fz op r).2.f (fuzzExitMessage fz op r).2.pos % 100 : Nat) : Int)
        then (List.range 32).map
          (fun j => (fuzzExitMessage fz op r).2.f ((fuzzExitMessage fz op r).2.pos + 1 + j) % 256)
        else root)
    ∧ ((fuzzExitMessageWithSignature fz op signature r).1.2 =
        if fz > (((fuzzExitMessage fz op r).2.f (fuzzExitMessage fz op r).2.pos % 100 : Nat) : Int)
        then (List.range 96).map
          (fun j => (fuzzExitMessage fz op r).2.f ((fuzzExitMessage fz op r).2.pos + 1 + j) % 256)
        else signature) :=
  ⟨fuzzExitMessage_validatorIndex fz op r, fuzzExitMessage_epoch fz op r,
   fuzzExitMessage_zero op r, fuzzExitMessageWithRoot_zero op root r,
   fuzzExitMessageWithSignature_zero op signature r, fuzzExitMessage_hundred op r,
   fuzzExitMessageWithRoot_hundred op root r,
   fuzzExitMessageWithSignature_hundred op signature r,
   fuzzExitMessageWithRoot_message fz op root r,
   fuzzExitMessageWithSignature_message fz op signature r,
   fuzzExitMessageWithRoot_root fz op root r,
   fuzzExitMessageWithSignature_signature fz op signature r⟩

/-- Evaluation of `C6_fuzz_intensity_semantics` at a concrete input:
intensity 0 leaves a concrete message unchanged. -/
theorem C6_witness :
    fuzzExitMessage 0 ⟨5, 7⟩ ⟨fun _ => 0, 0⟩ = (⟨5, 7⟩, ⟨fun _ => 0, 2⟩) :=
  (C6_fuzz_intensity_semantics 0 ⟨5, 7⟩ [1] [2] ⟨fun _ => 0, 0⟩).2.2.1

/-- C7: for every domain type, fork version and genesis validators
root, the generated domain is the 4-byte domain type followed by the
first 28 bytes of the fork-data hash: it has length 32, its first 4
bytes are the domain type, and its remaining 28 bytes are the hash
head; the equation itself gives determinism. -/
theorem C7_domain_structure (env : Env) (c : Cmd) (forkVersion genesisValidatorsRoot : List Nat)
    (hdt : env.voluntaryExitDomainType.length = 4)
    (hroot : (env.htrForkData forkVersion genesisValidatorsRoot).length = 32)
    (hfv : obtainForkVersion env c = .ok forkVersion)
    (hgvr : obtainGenesisValidatorsRoot env c = .ok genesisValidatorsRoot) :
    generateDomain env c = .ok { c with domain :=
        env.voluntaryExitDomainType ++
          (env.htrForkData forkVersion genesisValidatorsRoot).take 28 }
    ∧ (env.voluntaryExitDomainType ++
        (env.htrForkData forkVersion genesisValidatorsRoot).take 28).length = 32
    ∧ (env.voluntaryExitDomainType ++
        (env.htrForkData forkVersion genesisValidatorsRoot).take 28).take 4 =
        env.voluntaryExitDomainType
    ∧ (env.voluntaryExitDomainType ++
        (env.htrForkData forkVersion genesisValidatorsRoot).take 28).drop 4 =
        (env.htrForkData forkVersion genesisValidatorsRoot).take 28 := by
  have hd1 : copyInto (List.replicate 32 0) env.voluntaryExitDomainType
      = env.voluntaryExitDomainType ++ List.replicate 28 0 := by
    unfold copyInto
    rw [List.length_replicate, List.take_of_length_le (by omega), hdt]
    norm_num
  have hd2 : (env.voluntaryExitDomainType ++ List.replicate 28 (0 : Nat)).take 4 =
      env.voluntaryExitDomainType := by
    rw [List.take_append_eq_append_take]
    simp [hdt]
  have hd3 : (env.voluntaryExitDomainType ++ List.replicate 28 (0 : Nat)).drop 4 =
      List.replicate 28 0 := by
    rw [List.drop_append_eq_append_drop]
    simp [hdt]
  have hd4 : copyInto (List.replicate 28 0) (env.htrForkData forkVersion genesisValidatorsRoot)
      = (env.htrForkData forkVersion genesisValidatorsRoot).take 28 := by
    unfold copyInto
    rw [List.length_replicate, hroot]
    norm_num
  refine ⟨?_, ?_, ?_, ?_⟩
  · unfold generateDomain
    rw [hgvr, hfv]
    dsimp only
    rw [hd1, hd2, hd3, hd4]
  · simp [hdt, hroot]
  · rw [List.take_append_eq_append_take]
    simp [hdt]
  · rw [List.drop_append_eq_append_drop]
    simp [hdt]

/-- Evaluation of `C7_domain_structure` at a concrete input. -/
theorem C7_witness :
    generateDomain envBase cBase = .ok { cBase with domain :=
      (envBase.voluntaryExitDomainType ++
        (envBase.htrForkData envBase.chainCurrentForkVersion
          envBase.chainGenesisValidatorsRoot).take 28) } :=
  (C7_domain_structure envBase cBase envBase.chainCurrentForkVersion
    envBase.chainGenesisValidatorsRoot rfl rfl rfl rfl).1

/-- C10: the root checkpoint and the signature checkpoint each re-run
the message fuzz (their output message is exactly `fuzzExitMessage`'s),
message fields are either unchanged or replaced by a value below
1,000,000, and at nonzero intensity a concrete run changes the message
after the root was computed and after the signature was produced. -/
theorem C10_checkpoint_refuzz (fz : Int) (op : VoluntaryExit) (root signature : List Nat)
    (r : RandState) :
    (fuzzExitMessageWithRoot fz op root r).1.1 = (fuzzExitMessage fz op r).1
    ∧ (fuzzExitMessageWithSignature fz op signature r).1.1 = (fuzzExitMessage fz op r).1
    ∧ ((fuzzExitMessage fz op r).1.validatorIndex = op.validatorIndex ∨
        (fuzzExitMessage fz op r).1.validatorIndex < 1000000)
    ∧ ((fuzzExitMessage fz op r).1.epoch = op.epoch ∨
        (fuzzExitMessage fz op r).1.epoch < 1000000)
    ∧ (fuzzExitMessageWithRoot 1 ⟨5, 7⟩ [8, 9] ⟨fun _ => 0, 0⟩).1.1 ≠ (⟨5, 7⟩ : VoluntaryExit)
    ∧ (fuzzExitMessageWithSignature 1 ⟨5, 7⟩ [8, 9] ⟨fun _ => 0, 0⟩).1.1 ≠
        (⟨5, 7⟩ : VoluntaryExit) := by
  refine ⟨fuzzExitMessageWithRoot_message fz op root r,
    fuzzExitMessageWithSignature_message fz op signature r, ?_, ?_, by decide, by decide⟩
  · rw [fuzzExitMessage_validatorIndex]
    split
    · exact Or.inr (Nat.mod_lt _ (by norm_num))
    · exact Or.inl rfl
  · rw [fuzzExitMessage_epoch]
    split
    · split
      · exact Or.inr (Nat.mod_lt _ (by norm_num))
      · exact Or.inl rfl
    · split
      · exact Or.inr (Nat.mod_lt _ (by norm_num))
      · exact Or.inl rfl

/-- Evaluation of `C10_checkpoint_refuzz` at a concrete input: the
message changed at the root checkpoint. -/
theorem C10_witness :
    (fuzzExitMessageWithRoot 1 ⟨5, 7⟩ [8, 9] ⟨fun _ => 0, 0⟩).1.1 ≠ (⟨5, 7⟩ : VoluntaryExit) :=
  (C10_checkpoint_refuzz 1 ⟨5, 7⟩ [8, 9] [8, 9] ⟨fun _ => 0, 0⟩).2.2.2.2.1

/-- C2: given a mnemonic and a target validator (no path), the scan
tries indices `0, 1, 2, …`, deriving the candidate public key at each
index and comparing byte-for-byte with the target key; it returns the
handler of the first matching index, and when all `maxDistance = 1024`
indices mismatch it returns success with the command unchanged (no
operation produced, no error). -/
theorem C2_keyResolver_scan (env : Env) (c : Cmd) (seed : List Nat) (vinfo : ValidatorInfo)
    (hseed : env.seedFromMnemonic c.mnemonic = .ok seed)
    (hfetch : env.fetchValidatorInfo c.validator = .ok vinfo) :
    maxDistance = 1024
    ∧ ((∀ i, i < maxDistance →
          ∃ pk, env.derivePrivkey seed (validatorKeyPath i) = .ok pk ∧
            pk.pubkey ≠ vinfo.pubkey) →
        generateOperationFromMnemonicAndValidator env c = .ok c)
    ∧ (∀ i pk, i < maxDistance →
        env.derivePrivkey seed (validatorKeyPath i) = .ok pk →
        pk.pubkey = vinfo.pubkey →
        (∀ j, j < i →
          ∃ pkj, env.derivePrivkey seed (validatorKeyPath j) = .ok pkj ∧
            pkj.pubkey ≠ vinfo.pubkey) →
        generateOperationFromMnemonicAndValidator env c =
          (match env.parseAccount c.mnemonic [validatorKeyPath i] with
           | .error e => .error ("failed to create withdrawal account: " ++ e)
           | .ok validatorAccount =>
             generateOperationFromAccount env c vinfo validatorAccount env.chainEpoch)) := by
  have hunfold : generateOperationFromMnemonicAndValidator env c =
      scanValidatorKeysFrom env c seed vinfo maxDistance 0 := by
    unfold generateOperationFromMnemonicAndValidator
    rw [hseed, hfetch]
  refine ⟨rfl, ?_, ?_⟩
  · intro hno
    rw [hunfold]
    exact scanValidatorKeysFrom_no_match env c seed vinfo maxDistance 0
      (fun k _ hk2 => hno k (by omega))
  · intro i pk hi hd hpk hmin
    rw [hunfold]
    exact scanValidatorKeysFrom_first_match env c seed vinfo maxDistance 0 i pk
      (Nat.zero_le i) (by omega) hd hpk (fun j _ hj2 => hmin j hj2)

/-- Evaluation of `C2_keyResolver_scan` at a concrete input: a scan
in which no index matches terminates with the command unchanged. -/
theorem C2_witness :
    generateOperationFromMnemonicAndValidator envScan cScan = .ok cScan :=
  (C2_keyResolver_scan envScan cScan [] ⟨0, [9]⟩ rfl rfl).2.1
    (fun _ _ => ⟨⟨[], [0]⟩, rfl, by decide⟩)

/-- C4 counterexample: with a private key and a validator both
supplied — a conflicting combination — `obtainOperation` does not fail
with any error: it silently selects the private-key path and
succeeds. -/
theorem C4_counterexample :
    obtainRoute "" "" "k" "vv" = ObtainRoute.fromPrivateKey
    ∧ obtainOperation envBase cC4 = .ok cC4done :=
  ⟨by decide, rfl⟩

/-- C4 (amended): the obtain-operation dispatch factors through a
fixed-precedence route selection (file fallback when no key material;
mnemonic+path before mnemonic+validator; then private key; then
validator; a mnemonic with neither path nor validator fails), and the
final unsupported-combination error branch is unreachable.  Conflicting
combinations are resolved by precedence, not reported. -/
theorem C4_dispatch_refinement (env : Env) (c : Cmd) :
    obtainOperation env c =
      interpRoute (obtainRoute c.mnemonic c.path c.privateKey c.validator) env c
    ∧ obtainRoute c.mnemonic c.path c.privateKey c.validator ≠
        ObtainRoute.errUnsupportedCombination := by
  constructor
  · unfold obtainOperation obtainRoute interpRoute
    split_ifs <;> rfl
  · unfold obtainRoute
    split_ifs <;> simp_all

/-- Evaluation of `C4_dispatch_refinement` at a concrete input. -/
theorem C4_witness :
    obtainRoute cBase.mnemonic cBase.path cBase.privateKey cBase.validator ≠
      ObtainRoute.errUnsupportedCombination :=
  (C4_dispatch_refinement envBase cBase).2

/-- C8: each malformed user input is rejected with an error — a
derivation path failing the validator-path pattern, a fork-version or
genesis-validators-root hex string that does not decode or has the
wrong length, and a signed-operation file or input string that fails
JSON decoding. -/
theorem C8_malformed_input_rejected (env : Env) (c : Cmd) :
    (∀ seed, env.seedFromMnemonic c.mnemonic = .ok seed →
      validatorPathMatch c.path = false →
      generateOperationFromMnemonicAndPath env c =
        .error ("path " ++ c.path ++ " does not match EIP-2334 format for a validator"))
    ∧ (c.genesisValidatorsRoot ≠ "" → hexDecode (trim0x c.genesisValidatorsRoot) = none →
        obtainGenesisValidatorsRoot env c = .error "invalid genesis validators root supplied")
    ∧ (∀ bs, c.genesisValidatorsRoot ≠ "" →
        hexDecode (trim0x c.genesisValidatorsRoot) = some bs → bs.length ≠ 32 →
        obtainGenesisValidatorsRoot env c = .error "invalid length for genesis validators root")
    ∧ (c.forkVersion ≠ "" → hexDecode (trim0x c.forkVersion) = none →
        obtainForkVersion env c = .error "invalid fork version supplied")
    ∧ (∀ bs, c.forkVersion ≠ "" → hexDecode (trim0x c.forkVersion) = some bs →
        bs.length ≠ 4 →
        obtainForkVersion env c = .error "invalid length for fork version")
    ∧ (∀ data e, env.exitFileExists = true → env.readExitFile = .ok data →
        env.parseSignedOperation data = .error e →
        obtainOperationFromFile env c =
          .error ("failed to parse exit operation file: " ++ e))
    ∧ (∀ e, c.signedOperationInput.toList.head? = some leftBrace →
        env.parseSignedOperation c.signedOperationInput = .error e →
        obtainOperationFromInput env c =
          .error ("failed to parse exit operation input: " ++ e)) := by
  refine ⟨?_, ?_, ?_, ?_, ?_, ?_, ?_⟩
  · intro seed hseed hnom
    unfold generateOperationFromMnemonicAndPath
    rw [hseed]
    simp [hnom]
  · intro hne hdec
    unfold obtainGenesisValidatorsRoot
    rw [if_pos hne, hdec]
  · intro bs hne hdec hlen
    unfold obtainGenesisValidatorsRoot
    rw [if_pos hne, hdec]
    simp [hlen]
  · intro hne hdec
    unfold obtainForkVersion
    rw [if_pos hne, hdec]
  · intro bs hne hdec hlen
    unfold obtainForkVersion
    rw [if_pos hne, hdec]
    simp [hlen]
  · intro data e hex hread hparse
    unfold obtainOperationFromFile
    rw [hex]
    simp only [Bool.true_eq_false, if_false]
    rw [hread]
    simp [hparse]
  · intro e hbrace hparse
    unfold obtainOperationFromInput
    rw [if_pos hbrace]
    simp only
    rw [hparse]

/-- Evaluation of `C8_malformed_input_rejected` at a concrete input:
a genesis-validators-root string that is not hex is rejected. -/
theorem C8_witness :
    obtainGenesisValidatorsRoot envBase cHexBad =
      .error "invalid genesis validators root supplied" :=
  (C8_malformed_input_rejected envBase cHexBad).2.1 (by decide) (by decide)

/-- C9: with JSON output or offline mode selected (and the earlier
steps succeeding), the run ends successfully after validation and the
broadcast step is never reached: `SubmitVoluntaryExit` is not
invoked (the flag component of `process` is `false`). -/
theorem C9_offline_no_broadcast (env : Env) (c c1 c2 : Cmd)
    (hprep : c.prepareOffline = false)
    (hsetup : setup env c = .ok ())
    (hci : env.obtainChainInfoResult = .ok ())
    (hdom : generateDomain env c = .ok c1)
    (hobt : obtainOperation env c1 = .ok c2)
    (hmode : c.json = true ∨ c.offline = true) :
    process env c = (.ok (), false) := by
  obtain ⟨d, rfl⟩ := generateDomain_shape env c c1 hdom
  have hflags := flags_of_obtainOperation env _ c2 hobt
  have hor : (c2.json || c2.offline) = true := by
    rcases hmode with h | h
    · have : c2.json = true := by rw [hflags.1]; exact h
      rw [this]
      simp
    · have : c2.offline = true := by rw [hflags.2]; exact h
      rw [this]
      simp
  unfold process
  rw [hsetup]
  dsimp only
  rw [hci]
  dsimp only
  rw [hprep]
  simp only [Bool.false_eq_true, if_false]
  rw [hdom]
  dsimp only
  rw [hobt]
  dsimp only
  unfold validateOperation
  simp [hor]

/-- Evaluation of `C9_offline_no_broadcast` at a concrete input. -/
theorem C9_witness : process envBase cC9 = (.ok (), false) :=
  C9_offline_no_broadcast envBase cC9 cC9dom cC9done rfl rfl rfl rfl rfl (Or.inr rfl)

/-- C1 counterexample: a concrete run in which the obtained operation
fails the operation verifier, yet `validateOperation` reports success
and the whole run succeeds — the Validated step does not run the
verifier and cannot fail. -/
theorem C1_counterexample :
    obtainOperation envBad cC1dom = .ok cC1done
    ∧ verifySignedOperation envBad cC1done.domain opGen = .error "signature does not verify"
    ∧ validateOperation cC1done = (true, "")
    ∧ process envBad cC1 = (.ok (), false) :=
  ⟨rfl, rfl, rfl, rfl⟩

/-- C1 (amended): the `OperationObtained → Validated` step is a stub
that always reports success without invoking the operation verifier:
whenever the obtain step succeeds, the run proceeds unconditionally
past validation to the JSON/broadcast decision, whatever the
operation's validity.  (The verifier runs only inside the obtain step
for file- or input-loaded operations.) -/
theorem C1_validation_stub (env : Env) (c c1 c2 : Cmd)
    (hprep : c.prepareOffline = false)
    (hsetup : setup env c = .ok ())
    (hci : env.obtainChainInfoResult = .ok ())
    (hdom : generateDomain env c = .ok c1)
    (hobt : obtainOperation env c1 = .ok c2) :
    validateOperation c2 = (true, "")
    ∧ process env c =
        (if c2.json || c2.offline then ((.ok (), false) : Except String Unit × Bool)
         else (broadcastOperation env c2, true)) := by
  refine ⟨rfl, ?_⟩
  unfold process
  rw [hsetup]
  dsimp only
  rw [hci]
  dsimp only
  rw [hprep]
  simp only [Bool.false_eq_true, if_false]
  rw [hdom]
  dsimp only
  rw [hobt]
  dsimp only
  unfold validateOperation
  simp

/-- Evaluation of `C1_validation_stub` at a concrete input. -/
theorem C1_witness :
    validateOperation cC1done = (true, "")
    ∧ process envBad cC1 =
        (if cC1done.json || cC1done.offline then ((.ok (), false) : Except String Unit × Bool)
         else (broadcastOperation envBad cC1done, true)) :=
  C1_validation_stub envBad cC1 cC1dom cC1done rfl rfl rfl rfl rfl

/-- C3: when the mnemonic+validator scan exhausts all 1024 indices
without a match, the obtain step succeeds with the signed operation
still unset, validation still succeeds, and (not offline, not JSON)
the run proceeds to broadcast the absent `none` operation. -/
theorem C3_nil_operation_broadcast (env : Env) (c : Cmd) (seed : List Nat)
    (vinfo : ValidatorInfo)
    (hoff : c.offline = false) (hjson : c.json = false) (hprep : c.prepareOffline = false)
    (hconn : env.connectResult = .ok ()) (hct : env.chaintimeResult = .ok ())
    (hci : env.obtainChainInfoResult = .ok ())
    (hgvr : c.genesisValidatorsRoot = "") (hfv : c.forkVersion = "")
    (hm : c.mnemonic ≠ "") (hp : c.path = "") (hv : c.validator ≠ "")
    (hseed : env.seedFromMnemonic c.mnemonic = .ok seed)
    (hfetch : env.fetchValidatorInfo c.validator = .ok vinfo)
    (hnone : c.signedOperation = none)
    (hnomatch : ∀ i, i < maxDistance →
      ∃ pk, env.derivePrivkey seed (validatorKeyPath i) = .ok pk ∧
        pk.pubkey ≠ vinfo.pubkey) :
    process env c = (env.submitVoluntaryExit none, true) := by
  have hsetup : setup env c = .ok () := by
    unfold setup
    rw [hoff]
    simp only [Bool.false_eq_true, if_false]
    rw [hconn]
    dsimp only
    rw [hct]
  have hdom : ∃ d, generateDomain env c = .ok { c with domain := d } := by
    unfold generateDomain obtainGenesisValidatorsRoot obtainForkVersion
    rw [if_neg (by simp [hgvr]), if_neg (by simp [hfv])]
    exact ⟨_, rfl⟩
  obtain ⟨d, hdom⟩ := hdom
  have hscan : generateOperationFromMnemonicAndValidator env { c with domain := d } =
      .ok { c with domain := d } := by
    unfold generateOperationFromMnemonicAndValidator
    dsimp only
    rw [hseed]
    dsimp only
    rw [hfetch]
    dsimp only
    exact scanValidatorKeysFrom_no_match env _ seed vinfo maxDistance 0
      (fun k _ hk2 => hnomatch k (by omega))
  have hobt : obtainOperation env { c with domain := d } =
      .ok { c with domain := d } := by
    unfold obtainOperation
    dsimp only
    rw [if_neg (by simp [hv]), if_pos (by simpa using hm), if_neg (by simp [hp]),
      if_pos (by simpa using hv)]
    exact hscan
  unfold process
  rw [hsetup]
  dsimp only
  rw [hci]
  dsimp only
  rw [hprep]
  simp only [Bool.false_eq_true, if_false]
  rw [hdom]
  dsimp only
  rw [hobt]
  dsimp only
  unfold validateOperation broadcastOperation
  simp [hjson, hoff, hnone]

/-- Evaluation of `C3_nil_operation_broadcast` at a concrete input:
the whole workflow runs and attempts to broadcast `none`. -/
theorem C3_witness : process envScan cScan = (envScan.submitVoluntaryExit none, true) :=
  C3_nil_operation_broadcast envScan cScan [] ⟨0, [9]⟩ rfl rfl rfl rfl rfl rfl rfl rfl
    (by decide) rfl (by decide) rfl rfl rfl
    (fun _ _ => ⟨⟨[], [0]⟩, rfl, by decide⟩)

/-- C5: at fuzz intensity 0, a signed operation built by
`createSignedOperation` for a validator, epoch and signing domain is
accepted by `verifySignedOperation` run against the same domain,
provided the chain lookup returns that validator and the BLS
primitives are sound for the signing account and the validator's
(matching) public key. -/
theorem C5_build_verify_roundtrip (env : Env) (c : Cmd) (validator : ValidatorInfo)
    (account : Account) (epoch : Nat) (op : SignedVoluntaryExit) (r' : RandState)
    (pk : List Nat)
    (hfz : env.fuzziness = 0)
    (hbuild : createSignedOperation env c validator account epoch = .ok (op, r'))
    (hfetch : env.fetchValidatorInfo (toString validator.index) = .ok validator)
    (hpk : env.pubFromBytes validator.pubkey = .ok pk)
    (hbls : ∀ root d sb, env.signRoot account root d = .ok sb →
      ∃ s, env.sigFromBytes sb = .ok s ∧
        env.verify s (env.htrSigningData root d) pk = true) :
    verifySignedOperation env c.domain op = .ok () := by
  unfold createSignedOperation at hbuild
  rw [hfz] at hbuild
  simp only [fuzzExitMessage_zero, fuzzExitMessageWithRoot_zero,
    fuzzExitMessageWithSignature_zero] at hbuild
  split at hbuild
  · exact absurd hbuild (by simp)
  · split at hbuild
    · exact absurd hbuild (by simp)
    · rename_i hsign
      simp only [Except.ok.injEq, Prod.mk.injEq] at hbuild
      obtain ⟨hop, _⟩ := hbuild
      obtain ⟨s, hs, hv⟩ := hbls _ _ _ hsign
      unfold verifySignedOperation
      rw [← hop]
      dsimp only
      rw [hs]
      dsimp only
      rw [hfetch]
      dsimp only
      rw [hpk]
      dsimp only
      simp [hv]

/-- Evaluation of `C5_build_verify_roundtrip` at a concrete input:
the concretely built operation verifies. -/
theorem C5_witness : verifySignedOperation envRT cRT.domain opRT = .ok () :=
  C5_build_verify_roundtrip envRT cRT ⟨9, [2]⟩ ⟨5⟩ 3 opRT rand8 [5] rfl rfl rfl rfl
    (fun root d sb hs => by
      injection hs with hs
      exact ⟨sb, rfl, by rw [← hs]; simp [envRT, envBase, List.append_assoc]⟩)

end Exitfuzz
